import Mathlib

/-!
Verification of the memory-chat backend's memory-management core
(`src/services/messageService.ts` and the chat handler in `src/server.ts`).

The TypeScript services are asynchronous functions over a Supabase store and
a Gemini completion service.  The shallow embedding below models each awaited
external interaction (a store query, a store insert, a completion call) as an
explicit input to the corresponding Lean function: the success value carries
the data the query would return, and the failure case carries the store or
completion error.  Database rows become structures holding the fields the
service code reads; timestamps are naturals (insertion time is monotone per
user).  A thrown JavaScript `Error` becomes `Except.error` with the thrown
message; a value returned normally becomes `Except.ok`.
-/

/-- Message role as constrained by the `messages` table
(`role in ('user', 'model')`). -/
inductive Role where
  | user
  | model
deriving DecidableEq, Repr

/-- A row of the `messages` table (`Tables<'messages'>`): id, user_id, role,
content, timestamp.  Timestamps are naturals standing for `timestamptz`. -/
structure Message where
  id : Nat
  user_id : String
  role : Role
  content : String
  timestamp : Nat
deriving DecidableEq, Repr

/-- A row of the `memory_summary` table (`Tables<'memory_summary'>`),
projected to the fields the service reads: user_id, content, updated_at. -/
structure MemorySummary where
  user_id : String
  content : String
  updated_at : Nat
deriving DecidableEq, Repr

/-- A row of the `salient_memories` table (`Tables<'salient_memories'>`),
projected to the fields the service reads: user_id and content. -/
structure SalientMemory where
  user_id : String
  content : String
deriving DecidableEq, Repr

/-- One entry of the Gemini `Content[]` history: a role string ("user" or
"model") and the `parts` list, where each part is its `text` field. -/
structure Content where
  role : String
  parts : List String
deriving DecidableEq, Repr

/-- `MAX_RECENT_MESSAGES = 10`: max messages to fetch for recent history. -/
def MAX_RECENT_MESSAGES : Nat := 10

/-- `MAX_MESSAGES_FOR_SUMMARY = 50`: messages to consider for summarization. -/
def MAX_MESSAGES_FOR_SUMMARY : Nat := 50

/-- `SUMMARY_THRESHOLD = 40`: trigger summary if message count exceeds this. -/
def SUMMARY_THRESHOLD : Nat := 40

/-- `SALIENT_EXTRACTION_INTERVAL = 5`: extract salient facts every 5 messages. -/
def SALIENT_EXTRACTION_INTERVAL : Nat := 5

/-- Insert a message into a list kept in ascending timestamp order
(the comparison the store uses for `order('timestamp', ascending: true)`). -/
def insertByTimestamp (m : Message) : List Message → List Message
  | [] => [m]
  | x :: xs =>
      if m.timestamp ≤ x.timestamp then m :: x :: xs
      else x :: insertByTimestamp m xs

/-- `ORDER BY timestamp ASC` over a list of rows (insertion sort). -/
def orderByTimestampAscending (rows : List Message) : List Message :=
  rows.foldr insertByTimestamp []

/-- `getRecentMessages(userId)`: selects the rows of `messages` with the
given `user_id`, ordered by timestamp ascending, limited to
`MAX_RECENT_MESSAGES`; throws "Failed to fetch messages" when the query
fails.  `table` is the `messages` collection; `fetchOk` is whether the
store query succeeds. -/
def getRecentMessages (userId : String) (table : List Message) (fetchOk : Bool) :
    Except String (List Message) :=
  if fetchOk then
    Except.ok
      ((orderByTimestampAscending (table.filter (fun m => m.user_id == userId))).take
        MAX_RECENT_MESSAGES)
  else
    Except.error "Failed to fetch messages"

/-- Which background tasks `processBackgroundMemory` runs for a given
message count. -/
structure BackgroundActions where
  ranExtraction : Bool
  ranSummarization : Bool
deriving DecidableEq, Repr

/-- `processBackgroundMemory(userId)`: counts the user's messages, returns
without acting when the count query fails, and otherwise runs salient-fact
extraction when `messageCount > 0 && messageCount % SALIENT_EXTRACTION_INTERVAL === 0`
and conventional summarization when `messageCount >= SUMMARY_THRESHOLD`
(two independent `if` statements).  `countResult` is the outcome of the
count query. -/
def processBackgroundMemory (countResult : Except String Nat) : BackgroundActions :=
  match countResult with
  | Except.error _ => ⟨false, false⟩
  | Except.ok messageCount =>
      ⟨decide (messageCount > 0) && messageCount % SALIENT_EXTRACTION_INTERVAL == 0,
       decide (messageCount ≥ SUMMARY_THRESHOLD)⟩

/-- The guard at the head of `checkAndSummarizeMemory`: after fetching up to
`MAX_MESSAGES_FOR_SUMMARY` messages it returns early unless
`messages.length >= SUMMARY_THRESHOLD`.  `fetchedCount` is the number of
rows the limited fetch returned. -/
def checkAndSummarizeMemoryProceeds (fetchedCount : Nat) : Bool :=
  decide (fetchedCount ≥ SUMMARY_THRESHOLD)

/-- The fixed acknowledgement pushed after the persona/facts entry in
`buildPromptWithHistory`. -/
def personaAck : String :=
  "Understood. I will act according to this personality and remember the provided facts about the user."

/-- The fixed acknowledgement pushed after the summary entry in
`buildPromptWithHistory`. -/
def summaryAck : String :=
  "Okay, I have reviewed the summary of our previous conversation."

/-- `buildPromptWithHistory(userId, messages, newMessage)`: assembles the
Gemini history.  The three awaited fetches it begins with
(`getPersonalityDescription`, `getMemorySummary`, `getSalientMemories`) are
passed in as `systemInstruction`, `memorySummary` and `salientMemories`.
It pushes, in order: the persona entry (with the salient facts appended as
a bulleted list when `salientMemories.length > 0`) plus a model
acknowledgement; when `memorySummary?.content` is truthy (row present and
content non-empty), a summary entry plus a model acknowledgement; each
recent message with its role mapped by `msg.role === 'user' ? 'user' : 'model'`;
and finally the new user message. -/
def buildPromptWithHistory (systemInstruction : String)
    (memorySummary : Option MemorySummary) (salientMemories : List SalientMemory)
    (messages : List Message) (newMessage : String) : List Content :=
  let initialUserPrompt :=
    if salientMemories.length > 0 then
      "System Prompt: " ++ systemInstruction ++
        "\n\nThings to remember about the user:\n" ++
        String.intercalate "\n" (salientMemories.map (fun m => "- " ++ m.content))
    else
      "System Prompt: " ++ systemInstruction
  let base := [Content.mk "user" [initialUserPrompt], Content.mk "model" [personaAck]]
  let withSummary :=
    match memorySummary with
    | some row =>
        if row.content ≠ "" then
          base ++ [Content.mk "user" ["Previous Conversation Summary: " ++ row.content],
                   Content.mk "model" [summaryAck]]
        else base
    | none => base
  let withMessages := withSummary ++ messages.map (fun msg =>
    Content.mk (if msg.role = Role.user then "user" else "model") [msg.content])
  withMessages ++ [Content.mk "user" [newMessage]]

/-- The role label used when a message is serialized into a prompt
(`${msg.role}: ${msg.content}`). -/
def roleString (r : Role) : String :=
  match r with
  | Role.user => "user"
  | Role.model => "model"

/-- The prompt `generateMemorySummary` sends to the completion service. -/
def summaryPrompt (messages : List Message) : String :=
  "Summarize the key points and topics discussed in the following conversation. Be concise and focus on information that would be useful context for future interactions. Conversation:\n\n" ++
    String.intercalate "\n" (messages.map (fun msg => roleString msg.role ++ ": " ++ msg.content)) ++
    "\n\nSummary:"

/-- `generateMemorySummary(messages)`: calls the completion service on
`summaryPrompt messages` and returns the trimmed response; when the call
fails it catches the failure and throws
`new Error('Failed to generate memory summary')`.  `complete` is the
completion service (`model.generateContent`). -/
def generateMemorySummary (messages : List Message)
    (complete : String → Except Unit String) : Except String String :=
  match complete (summaryPrompt messages) with
  | Except.ok text => Except.ok text.trim
  | Except.error _ => Except.error "Failed to generate memory summary"

/-- `saveNewSalientFacts(userId, facts)`: returns at once when `facts` is
empty; fetches the existing fact contents for the user and aborts (leaving
the table unchanged) when that fetch fails; otherwise filters out the
candidates whose content exactly matches an existing content (a JS `Set`
membership test) and, only when the remainder is non-empty, issues one
insert of the remainder.  `table` is the `salient_memories` collection,
`fetchOk` whether the select succeeds, `insertOk` whether the insert
succeeds (an insert error is only logged).  Returns the resulting table and
whether an insert statement was issued. -/
def saveNewSalientFacts (userId : String) (facts : List String)
    (table : List SalientMemory) (fetchOk : Bool) (insertOk : Bool) :
    List SalientMemory × Bool :=
  if facts.isEmpty then (table, false)
  else if !fetchOk then (table, false)
  else
    let existingContent := (table.filter (fun f => f.user_id == userId)).map
      (fun f => f.content)
    let factsToInsert := (facts.filter (fun fact => !existingContent.contains fact)).map
      (fun fact => SalientMemory.mk userId fact)
    if factsToInsert.length > 0 then
      (if insertOk then table ++ factsToInsert else table, true)
    else (table, false)

/-- Errors that can arise inside background memory processing. -/
inductive BgError where
  | store (msg : String)
  | completion (msg : String)
deriving DecidableEq, Repr

/-- `saveMessage(userId, content, role)`: inserts the turn and throws
"Failed to save message" when the insert fails; on success it fires
`processBackgroundMemory(userId).catch(err => console.error(...))` —
fire-and-forget, the rejection is caught and logged — and returns the
inserted row.  `insertResult` is the insert outcome, `backgroundOutcome`
the eventual outcome of the detached background task.  Returns the value
the caller receives and the background error that was logged (if any). -/
def saveMessage (insertResult : Except String Message)
    (backgroundOutcome : Except BgError Unit) :
    Except String Message × Option BgError :=
  match insertResult with
  | Except.error _ => (Except.error "Failed to save message", none)
  | Except.ok data =>
      (Except.ok data,
       match backgroundOutcome with
       | Except.error e => some e
       | Except.ok _ => none)

/-- `getMemorySummary(userId)`: runs the limited `single()` select and, when
it fails with a code other than PGRST116, only logs the error — the comment
in the source reads "Don't throw, just return null if fetch fails" — then
returns `data || null` in every case.  `data` and `error` are the two
fields of the query outcome.  Returns the (never-throwing) result and the
error that was logged (if any). -/
def getMemorySummary (data : Option MemorySummary) (error : Option String) :
    Except String (Option MemorySummary) × Option String :=
  if error.isSome && error != some "PGRST116" then
    (Except.ok data, error)
  else
    (Except.ok data, none)

/-- The HTTP reply the chat handler sends. -/
structure ChatResponse where
  status : Nat
  body : String
deriving DecidableEq, Repr

/-- The chat handler's observable outcome: the HTTP reply, whether the
completion service was invoked, and whether an assistant turn was saved. -/
structure ChatTrace where
  response : ChatResponse
  completionCalled : Bool
  assistantTurnSaved : Bool
deriving DecidableEq, Repr

/-- `chatHandler` (`POST /api/chat/message`): validates `message` and
`userId` (falsy ⇒ 400 before any side effect); then, inside one
`try/catch`, requires the Gemini client (missing API key throws), saves the
user turn via `saveMessage`, fetches recent messages, builds the history
with `buildPromptWithHistory`, calls the completion service on it, saves
the bot response as a model turn via `saveMessage`, and replies 200 with
the response text.  Any throw in the `try` is answered with
500 "Failed to generate response".  External interactions are passed in:
`userInsert`/`userBg` feed the first `saveMessage`, `recentResult` is the
recent-messages query, `persona`/`memorySummaryRow`/`salient` feed
`buildPromptWithHistory`, `complete` is the completion service, and
`modelInsert`/`modelBg` feed the second `saveMessage`. -/
def chatHandler (message userId : String) (apiKeyPresent : Bool)
    (userInsert : Except String Message) (userBg : Except BgError Unit)
    (recentResult : Except String (List Message))
    (persona : String) (memorySummaryRow : Option MemorySummary)
    (salient : List SalientMemory)
    (complete : List Content → Except String String)
    (modelInsert : String → Except String Message) (modelBg : Except BgError Unit) :
    ChatTrace :=
  if message = "" then ⟨⟨400, "Message is required"⟩, false, false⟩
  else if userId = "" then ⟨⟨400, "User ID is required"⟩, false, false⟩
  else if !apiKeyPresent then ⟨⟨500, "Failed to generate response"⟩, false, false⟩
  else
    match (saveMessage userInsert userBg).1 with
    | Except.error _ => ⟨⟨500, "Failed to generate response"⟩, false, false⟩
    | Except.ok _ =>
        match recentResult with
        | Except.error _ => ⟨⟨500, "Failed to generate response"⟩, false, false⟩
        | Except.ok recentMessages =>
            match complete
                (buildPromptWithHistory persona memorySummaryRow salient
                  recentMessages message) with
            | Except.error _ => ⟨⟨500, "Failed to generate response"⟩, true, false⟩
            | Except.ok botResponseText =>
                match (saveMessage (modelInsert botResponseText) modelBg).1 with
                | Except.error _ => ⟨⟨500, "Failed to generate response"⟩, true, false⟩
                | Except.ok _ => ⟨⟨200, botResponseText⟩, true, true⟩

/-- Eleven turns saved for user "u" with strictly increasing timestamps
0..10 (the store keeps the log in insertion order). -/
def c1SavedTurns : List Message :=
  (List.range 11).map (fun i => Message.mk i "u" Role.user ("m" ++ toString i) i)

/-- C1: refuted on the code.  With 11 turns saved, `getRecentMessages`
(ascending order with the limit applied after it) returns the 10 OLDEST
turns — timestamps 0..9 — which differ from the 10 most recently saved
turns in ascending order (timestamps 1..10, i.e. the log with its first
element dropped).  The claim promised the most recent ones. -/
theorem getRecentMessages_returns_oldest_prefix :
    getRecentMessages "u" c1SavedTurns true = Except.ok (c1SavedTurns.take 10) ∧
    c1SavedTurns.take 10 ≠ c1SavedTurns.drop 1 := by
  constructor
  · rfl
  · decide

/-- C2: for every persona P, non-empty salient-fact list, summary row with
non-empty content S, recent turns [(user, A), (model, B)] and new message C,
`buildPromptWithHistory` returns exactly 7 entries in the fixed order:
persona+facts (user, one entry with the facts as a bulleted list), fixed
acknowledgement (model), summary (user), fixed acknowledgement (model),
A (user), B (model), C (user) — summary and facts precede live history and
the new message is last. -/
theorem buildPromptWithHistory_seven_entry_order
    (P S A B C : String) (row : MemorySummary) (facts : List SalientMemory)
    (m1 m2 : Message)
    (hfacts : facts ≠ []) (hrow : row.content = S) (hS : S ≠ "")
    (h1r : m1.role = Role.user) (h1c : m1.content = A)
    (h2r : m2.role = Role.model) (h2c : m2.content = B) :
    buildPromptWithHistory P (some row) facts [m1, m2] C =
      [Content.mk "user"
         ["System Prompt: " ++ P ++ "\n\nThings to remember about the user:\n" ++
           String.intercalate "\n" (facts.map (fun m => "- " ++ m.content))],
       Content.mk "model" [personaAck],
       Content.mk "user" ["Previous Conversation Summary: " ++ S],
       Content.mk "model" [summaryAck],
       Content.mk "user" [A],
       Content.mk "model" [B],
       Content.mk "user" [C]] := by
  have hlen : 0 < facts.length := List.length_pos.mpr hfacts
  subst hrow
  simp [buildPromptWithHistory, hlen, hS, h1r, h1c, h2r, h2c]

/-- Witness for C2 at persona "P", one fact "F1", summary "S", turns
[(user, "A"), (model, "B")] and new message "C". -/
theorem buildPromptWithHistory_seven_entry_order_witness :
    buildPromptWithHistory "P" (some (MemorySummary.mk "u" "S" 0))
        [SalientMemory.mk "u" "F1"]
        [Message.mk 0 "u" Role.user "A" 0, Message.mk 1 "u" Role.model "B" 1] "C" =
      [Content.mk "user"
         ["System Prompt: " ++ "P" ++ "\n\nThings to remember about the user:\n" ++
           String.intercalate "\n"
             ([SalientMemory.mk "u" "F1"].map (fun m => "- " ++ m.content))],
       Content.mk "model" [personaAck],
       Content.mk "user" ["Previous Conversation Summary: " ++ "S"],
       Content.mk "model" [summaryAck],
       Content.mk "user" ["A"],
       Content.mk "model" ["B"],
       Content.mk "user" ["C"]] :=
  buildPromptWithHistory_seven_entry_order "P" "S" "A" "B" "C"
    (MemorySummary.mk "u" "S" 0) [SalientMemory.mk "u" "F1"]
    (Message.mk 0 "u" Role.user "A" 0) (Message.mk 1 "u" Role.model "B" 1)
    (by decide) rfl (by decide) rfl rfl rfl rfl

/-- C3: refuted on the code.  When the completion service fails,
`generateMemorySummary` does not return any sentinel string: it throws
(`Except.error`) the fixed message "Failed to generate memory summary",
so its result holds no string at all (`toOption = none`). -/
theorem generateMemorySummary_failure_is_error_not_string :
    generateMemorySummary [] (fun _ => Except.error ()) =
      Except.error "Failed to generate memory summary" ∧
    (generateMemorySummary [] (fun _ => Except.error ())).toOption = none :=
  ⟨rfl, rfl⟩

/-- C3 (amended): for every input window of turns, when the completion
service fails on the summarization prompt, `generateMemorySummary` throws a
fixed error ("Failed to generate memory summary") rather than returning a
string; the background caller catches and logs it. -/
theorem generateMemorySummary_failure_raises_fixed_error
    (messages : List Message) (complete : String → Except Unit String)
    (hfail : complete (summaryPrompt messages) = Except.error ()) :
    generateMemorySummary messages complete =
      Except.error "Failed to generate memory summary" := by
  simp [generateMemorySummary, hfail]

/-- Witness for the amended C3 at a one-turn window and an always-failing
completion service. -/
theorem generateMemorySummary_failure_raises_fixed_error_witness :
    generateMemorySummary [Message.mk 0 "u" Role.user "hi" 0]
        (fun _ => Except.error ()) =
      Except.error "Failed to generate memory summary" :=
  generateMemorySummary_failure_raises_fixed_error
    [Message.mk 0 "u" Role.user "hi" 0] (fun _ => Except.error ()) rfl

/-- C4: the salient-fact extraction branch of the background scheduler runs
exactly when the message count is a positive multiple of
SALIENT_EXTRACTION_INTERVAL = 5: for every count, the trigger holds iff
`count % 5 = 0 ∧ count > 0`; in particular it is false at 0, 1, 4, 6 and
true at 5, 10, 15. -/
theorem extraction_trigger_iff_positive_multiple_of_five :
    (∀ messageCount : Nat,
        (processBackgroundMemory (Except.ok messageCount)).ranExtraction = true ↔
          messageCount % 5 = 0 ∧ 0 < messageCount) ∧
    (processBackgroundMemory (Except.ok 0)).ranExtraction = false ∧
    (processBackgroundMemory (Except.ok 1)).ranExtraction = false ∧
    (processBackgroundMemory (Except.ok 4)).ranExtraction = false ∧
    (processBackgroundMemory (Except.ok 6)).ranExtraction = false ∧
    (processBackgroundMemory (Except.ok 5)).ranExtraction = true ∧
    (processBackgroundMemory (Except.ok 10)).ranExtraction = true ∧
    (processBackgroundMemory (Except.ok 15)).ranExtraction = true := by
  refine ⟨?_, by decide, by decide, by decide, by decide, by decide, by decide, by decide⟩
  intro messageCount
  simp [processBackgroundMemory, SALIENT_EXTRACTION_INTERVAL]
  omega

/-- C5: the summarization branch of the background scheduler runs exactly
when `count ≥ SUMMARY_THRESHOLD = 40` (false at 39, true at 40 and 50);
the re-check inside `checkAndSummarizeMemory` over the fetched window of at
most MAX_MESSAGES_FOR_SUMMARY = 50 rows agrees with that trigger, so the
summarizer proceeds exactly when the threshold holds; and at count 40 both
the extraction branch and the summarization branch run in the same
invocation. -/
theorem summarization_trigger_iff_threshold :
    (∀ messageCount : Nat,
        ((processBackgroundMemory (Except.ok messageCount)).ranSummarization = true ↔
          SUMMARY_THRESHOLD ≤ messageCount) ∧
        checkAndSummarizeMemoryProceeds (min messageCount MAX_MESSAGES_FOR_SUMMARY) =
          (processBackgroundMemory (Except.ok messageCount)).ranSummarization) ∧
    (processBackgroundMemory (Except.ok 39)).ranSummarization = false ∧
    (processBackgroundMemory (Except.ok 40)).ranSummarization = true ∧
    (processBackgroundMemory (Except.ok 50)).ranSummarization = true ∧
    ((processBackgroundMemory (Except.ok 40)).ranExtraction = true ∧
      (processBackgroundMemory (Except.ok 40)).ranSummarization = true) := by
  refine ⟨?_, by decide, by decide, by decide, by decide, by decide⟩
  intro messageCount
  constructor
  · simp [processBackgroundMemory, SUMMARY_THRESHOLD]
  · simp only [processBackgroundMemory, checkAndSummarizeMemoryProceeds,
      SUMMARY_THRESHOLD, MAX_MESSAGES_FOR_SUMMARY, decide_eq_decide]
    omega

/-- C6: with a successful duplicate-check fetch, `saveNewSalientFacts`
appends to the table exactly the candidates whose content does not exactly
match any existing stored content for that user (each wrapped into a row
for that user), and issues an insert statement exactly when that remainder
is non-empty; in the spec's example — existing fact "likes coffee",
candidates "likes coffee" and "owns a cat" — only "owns a cat" is
inserted. -/
theorem saveNewSalientFacts_inserts_exactly_new_facts :
    (∀ (userId : String) (facts : List String) (table : List SalientMemory),
        saveNewSalientFacts userId facts table true true =
          (table ++ (facts.filter (fun fact =>
              !(((table.filter (fun f => f.user_id == userId)).map
                  (fun f => f.content)).contains fact))).map
              (fun fact => SalientMemory.mk userId fact),
           decide (0 < (facts.filter (fun fact =>
              !(((table.filter (fun f => f.user_id == userId)).map
                  (fun f => f.content)).contains fact))).length))) ∧
    saveNewSalientFacts "u" ["likes coffee", "owns a cat"]
        [SalientMemory.mk "u" "likes coffee"] true true =
      ([SalientMemory.mk "u" "likes coffee", SalientMemory.mk "u" "owns a cat"],
       true) := by
  refine ⟨?_, by decide⟩
  intro userId facts table
  unfold saveNewSalientFacts
  rcases hfe : facts with _ | ⟨a, as⟩
  · simp
  · simp only [List.isEmpty_cons, Bool.not_true, Bool.false_eq_true, if_false,
      Bool.not_false, if_true, List.length_map]
    split
    · simp_all
    · simp_all

/-- C7: when the fetch of existing facts fails, `saveNewSalientFacts` fails
closed: for every candidate list and every table it issues no insert and
leaves the stored fact set unchanged, whatever the insert outcome would
have been. -/
theorem saveNewSalientFacts_fetch_failure_inserts_nothing
    (userId : String) (facts : List String) (table : List SalientMemory)
    (insertOk : Bool) :
    saveNewSalientFacts userId facts table false insertOk = (table, false) := by
  cases facts <;> simp [saveNewSalientFacts]

/-- C8: after a successful user-turn insert, `saveMessage` fires the
background memory task detached with a `.catch` that only logs: for a
background failure the caller still receives the saved turn, the failure
appears only on the log channel, and for every background outcome whatever
the caller receives the successfully saved turn. -/
theorem saveMessage_background_error_not_propagated (data : Message) (e : BgError) :
    (saveMessage (Except.ok data) (Except.error e)).1 = Except.ok data ∧
    (saveMessage (Except.ok data) (Except.error e)).2 = some e ∧
    (∀ backgroundOutcome : Except BgError Unit,
        (saveMessage (Except.ok data) backgroundOutcome).1 = Except.ok data) :=
  ⟨rfl, rfl, fun _ => rfl⟩

/-- C9: for a valid request (non-empty message and userId, Gemini client
available), if the initial save of the user turn fails with a store error,
`chatHandler` answers 500 "Failed to generate response", never invokes the
completion service and never saves an assistant turn. -/
theorem chatHandler_aborts_on_user_save_failure
    (message userId : String) (e : String) (userBg : Except BgError Unit)
    (recentResult : Except String (List Message)) (persona : String)
    (memorySummaryRow : Option MemorySummary) (salient : List SalientMemory)
    (complete : List Content → Except String String)
    (modelInsert : String → Except String Message) (modelBg : Except BgError Unit)
    (hmsg : message ≠ "") (huid : userId ≠ "") :
    chatHandler message userId true (Except.error e) userBg recentResult persona
        memorySummaryRow salient complete modelInsert modelBg =
      ⟨⟨500, "Failed to generate response"⟩, false, false⟩ := by
  simp [chatHandler, hmsg, huid, saveMessage]

/-- Witness for C9 at message "hi", user "u", an arbitrary store error and
trivial collaborators. -/
theorem chatHandler_aborts_on_user_save_failure_witness :
    chatHandler "hi" "u" true (Except.error "db down") (Except.ok ())
        (Except.ok []) "persona" none [] (fun _ => Except.ok "reply")
        (fun _ => Except.error "unused") (Except.ok ()) =
      ⟨⟨500, "Failed to generate response"⟩, false, false⟩ :=
  chatHandler_aborts_on_user_save_failure "hi" "u" "db down" (Except.ok ())
    (Except.ok []) "persona" none [] (fun _ => Except.ok "reply")
    (fun _ => Except.error "unused") (Except.ok ())
    (by decide) (by decide)

/-- C10: `getMemorySummary` never throws: for every query outcome it
returns `Except.ok` of the fetched data, in particular `none` on any store
error or absent row — whereas `getRecentMessages` on a failed fetch throws
"Failed to fetch messages". -/
theorem getMemorySummary_never_throws
    (data : Option MemorySummary) (error : Option String) :
    (getMemorySummary data error).1 = Except.ok data ∧
    (∀ e : String, (getMemorySummary none (some e)).1 = Except.ok none) ∧
    (∀ (userId : String) (table : List Message),
        getRecentMessages userId table false =
          Except.error "Failed to fetch messages") := by
  refine ⟨?_, fun e => ?_, fun u t => rfl⟩
  · unfold getMemorySummary
    split <;> rfl
  · unfold getMemorySummary
    split <;> rfl
